import Mathlib

/-!
Shallow embedding of the `davidastart/sample_app` backend:
  * `src/backend/config.py`            — pydantic `Settings` and its loading rules
  * `src/backend/main.py`              — FastAPI app: CORS origins, startup event,
                                         `GET /`, `GET /health`, `GET /api/info`
  * `src/therapist-app-deploy/backend/database.py`
                                       — engine construction, `get_db`, `test_connection`

Python exceptions are modelled with `Except String` (for database primitives) and an
explicit `Exn` type at the HTTP layer; logging and session lifecycle are modelled as an
explicit event trace (`Event`).  The external database is abstracted as a `DbState`
oracle that determines the outcome of a connection attempt and of the trivial
`SELECT 1 FROM DUAL` query.
-/

namespace TherapistApp

/-- Outcome oracle for the external database: either everything succeeds (`up`),
the TCP/Oracle connection attempt itself fails with some message (`connectFail`),
or the connection succeeds but executing the trivial query fails (`queryFail`). -/
inductive DbState : Type
  | up : DbState
  | connectFail (msg : String) : DbState
  | queryFail (msg : String) : DbState
deriving DecidableEq, Repr

/-- Observable events of a run: a physical connection attempt by the engine,
log lines at info/error level, and scoped-session lifecycle events. -/
inductive Event : Type
  | connectAttempt : Event
  | logInfo (msg : String) : Event
  | logError (msg : String) : Event
  | sessionCreated : Event
  | sessionClosed : Event
deriving DecidableEq, Repr

/-- `engine.connect()` (database.py line 40): one physical connection attempt is made;
it raises when the database is unreachable. -/
def engineConnect (db : DbState) : List Event × Except String Unit :=
  ([Event.connectAttempt],
    match db with
    | DbState.connectFail m => Except.error m
    | _ => Except.ok ())

/-- `conn.execute(q)` on an already-established connection (database.py line 41):
raises when the query fails. -/
def connExecute (db : DbState) (q : String) : Except String Unit :=
  match db with
  | DbState.queryFail m => Except.error m
  | _ => Except.ok ()

/-- `db.execute(q)` on a scoped session (main.py line 54).  A SQLAlchemy session
connects lazily, so both a connection failure and a query failure surface here
as an exception at the `execute` call. -/
def sessionExecute (db : DbState) (q : String) : Except String Unit :=
  match db with
  | DbState.up => Except.ok ()
  | DbState.connectFail m => Except.error m
  | DbState.queryFail m => Except.error m

/-- The composite underlying operation of the probe: a connection attempt followed by
the trivial query, with the first exception propagating.  This is what
`test_connection` wraps in `try/except`. -/
def connectAndQuery (db : DbState) : Except String Unit :=
  match (engineConnect db).2 with
  | Except.error e => Except.error e
  | Except.ok _ => connExecute db "SELECT 1 FROM DUAL"

/-- `test_connection()` (database.py lines 38-46): open a connection, run
`SELECT 1 FROM DUAL`, log success at info level and return `True`; any exception is
caught, logged at error level with the message
`"Database connection failed: " ++ e`, and converted to `False`.  Total by
construction — every exception path is caught. -/
def test_connection (db : DbState) : Bool × List Event :=
  match engineConnect db with
  | (evs, Except.error e) =>
      (false, evs ++ [Event.logError ("Database connection failed: " ++ e)])
  | (evs, Except.ok _) =>
      match connExecute db "SELECT 1 FROM DUAL" with
      | Except.error e =>
          (false, evs ++ [Event.logError ("Database connection failed: " ++ e)])
      | Except.ok _ =>
          (true, evs ++ [Event.logInfo "Database connection successful"])

/-- Exceptions visible at the HTTP layer: FastAPI's `HTTPException` and any other
(database) exception. -/
inductive Exn : Type
  | http (statusCode : Nat) (detail : String) : Exn
  | db (msg : String) : Exn
deriving DecidableEq, Repr

/-- Result of running a request handler body: normal return of a value, or a raised
exception propagating out of it. -/
inductive Outcome (α : Type) : Type
  | normal (a : α) : Outcome α
  | raised (e : Exn) : Outcome α
deriving DecidableEq, Repr

/-- `get_db()` (database.py lines 30-35): create one scoped session (`SessionLocal()`),
yield it to the consumer, and close it in a `finally` block — so the close happens on
every exit path, and the consumer's outcome (value or exception) propagates
unchanged.  The scoped session is bound to the same database oracle as the engine. -/
def get_db {α : Type} (consumer : DbState → List Event × Outcome α) (db : DbState) :
    List Event × Outcome α :=
  match consumer db with
  | (evs, r) => (Event.sessionCreated :: evs ++ [Event.sessionClosed], r)

/-- Number of events in a trace satisfying `p`. -/
def countEvent (p : Event → Bool) (evs : List Event) : Nat :=
  (evs.filter p).length

/-- Recognizer for physical connection attempts. -/
def isConnect : Event → Bool
  | Event.connectAttempt => true
  | _ => false

/-- Recognizer for scoped-session creations. -/
def isCreated : Event → Bool
  | Event.sessionCreated => true
  | _ => false

/-- Recognizer for scoped-session closes. -/
def isClosed : Event → Bool
  | Event.sessionClosed => true
  | _ => false

/-! ## Settings (config.py) -/

/-- The validated configuration object (config.py lines 4-25): one field per pydantic
field, with the declared Lean type mirroring the declared Python type
(`str` → `String`, `int` → `Int`, `bool` → `Bool`, `Optional[str]` → `Option String`).
Type-correctness of every field is enforced by construction. -/
structure Settings : Type where
  DATABASE_HOST : String
  DATABASE_PORT : Int
  DATABASE_SERVICE : String
  DATABASE_USER : String
  DATABASE_PASSWORD : String
  SECRET_KEY : String
  ALGORITHM : String
  ACCESS_TOKEN_EXPIRE_MINUTES : Int
  OCI_COMPARTMENT_ID : String
  OCI_REGION : String
  OCI_CONFIG_FILE : Option String
  APP_NAME : String
  DEBUG : Bool
  CORS_ORIGINS : String
deriving DecidableEq, Repr

/-- Case-sensitive field lookup, environment variables first, then the `.env` settings
file (pydantic-settings source priority with `case_sensitive = True`). -/
def lookup2 (env file : List (String × String)) (k : String) : Option String :=
  match env.lookup k with
  | some v => some v
  | none => file.lookup k

/-- The three pydantic fields declared without a default (config.py lines 10, 13, 18):
these are required. -/
def requiredFields : List String :=
  ["DATABASE_PASSWORD", "SECRET_KEY", "OCI_COMPARTMENT_ID"]

/-- The required fields for which neither the environment nor the settings file
provides a value; pydantic reports all of them in one validation error. -/
def missingRequired (env file : List (String × String)) : List String :=
  requiredFields.filter (fun k => (lookup2 env file k).isNone)

/-- Value of a string field with a declared default. -/
def getStr (env file : List (String × String)) (k dflt : String) : String :=
  (lookup2 env file k).getD dflt

/-- Value of an `int` field with a declared default: unset yields the default,
a set but unparseable value is a validation error naming the field. -/
def getInt (env file : List (String × String)) (k : String) (dflt : Int) :
    Except (List String) Int :=
  match lookup2 env file k with
  | none => Except.ok dflt
  | some v =>
      match v.toInt? with
      | some n => Except.ok n
      | none => Except.error [k]

/-- Pydantic's boolean coercion of a string (accepted spellings of true/false). -/
def parseBool (v : String) : Option Bool :=
  if v = "true" ∨ v = "True" ∨ v = "TRUE" ∨ v = "1" ∨ v = "yes" ∨ v = "Yes" ∨
      v = "on" ∨ v = "On" then some true
  else if v = "false" ∨ v = "False" ∨ v = "FALSE" ∨ v = "0" ∨ v = "no" ∨
      v = "No" ∨ v = "off" ∨ v = "Off" then some false
  else none

/-- Value of a `bool` field with a declared default. -/
def getBool (env file : List (String × String)) (k : String) (dflt : Bool) :
    Except (List String) Bool :=
  match lookup2 env file k with
  | none => Except.ok dflt
  | some v =>
      match parseBool v with
      | some b => Except.ok b
      | none => Except.error [k]

/-- The error names carried by an `Except` result (`[]` on success). -/
def errList {α : Type} : Except (List String) α → List String
  | Except.error es => es
  | Except.ok _ => []

/-- `Settings()` (config.py line 31): construct the settings object from the
environment and the `.env` file.  Missing required fields abort construction with a
validation error listing exactly those field names; otherwise every field takes its
source value (coerced to its declared type) or, if unset, its declared default. -/
def loadSettings (env file : List (String × String)) :
    Except (List String) Settings :=
  if missingRequired env file = [] then
    match getInt env file "DATABASE_PORT" 1521,
          getInt env file "ACCESS_TOKEN_EXPIRE_MINUTES" 30,
          getBool env file "DEBUG" false with
    | Except.ok port, Except.ok ttl, Except.ok dbg =>
        Except.ok
          { DATABASE_HOST := getStr env file "DATABASE_HOST" "oracle-db"
            DATABASE_PORT := port
            DATABASE_SERVICE := getStr env file "DATABASE_SERVICE" "FREEPDB1"
            DATABASE_USER := getStr env file "DATABASE_USER" "therapist_app"
            DATABASE_PASSWORD := getStr env file "DATABASE_PASSWORD" ""
            SECRET_KEY := getStr env file "SECRET_KEY" ""
            ALGORITHM := getStr env file "ALGORITHM" "HS256"
            ACCESS_TOKEN_EXPIRE_MINUTES := ttl
            OCI_COMPARTMENT_ID := getStr env file "OCI_COMPARTMENT_ID" ""
            OCI_REGION := getStr env file "OCI_REGION" "us-ashburn-1"
            OCI_CONFIG_FILE := some (getStr env file "OCI_CONFIG_FILE" "/app/.oci/config")
            APP_NAME := getStr env file "APP_NAME" "Therapist Office App"
            DEBUG := dbg
            CORS_ORIGINS := getStr env file "CORS_ORIGINS" "http://localhost:3000" }
    | pr, tr, dr => Except.error (errList pr ++ errList tr ++ errList dr)
  else Except.error (missingRequired env file)

/-! ## Engine construction (database.py lines 10-23) -/

/-- `DATABASE_URL` (database.py lines 10-15): the Oracle connection string
interpolated from the settings. -/
def DATABASE_URL (s : Settings) : String :=
  "oracle+oracledb://" ++ s.DATABASE_USER ++ ":" ++ s.DATABASE_PASSWORD ++ "@" ++
    s.DATABASE_HOST ++ ":" ++ toString s.DATABASE_PORT ++ "/" ++ s.DATABASE_SERVICE

/-- The keyword arguments of `create_engine` (database.py lines 17-23). -/
structure EngineConfig : Type where
  url : String
  echo : Bool
  pool_pre_ping : Bool
  pool_size : Nat
  max_overflow : Nat
deriving DecidableEq, Repr

/-- `engine = create_engine(...)` (database.py lines 17-23). -/
def engine (s : Settings) : EngineConfig :=
  { url := DATABASE_URL s
    echo := s.DEBUG
    pool_pre_ping := true
    pool_size := 10
    max_overflow := 20 }

/-! ## The FastAPI application (main.py) -/

/-- Python's `str.split(",")` on the character list of a string: fields are the
maximal comma-free segments, so `""` splits to `[""]` and a comma-free string splits
to itself alone. -/
def splitComma : List Char → List (List Char)
  | [] => [[]]
  | c :: rest =>
      if c = ',' then [] :: splitComma rest
      else
        match splitComma rest with
        | [] => [[c]]
        | f :: fs => (c :: f) :: fs

/-- Joining a field list back with commas — the left inverse of `splitComma`. -/
def joinComma : List (List Char) → List Char
  | [] => []
  | [x] => x
  | x :: xs => x ++ ',' :: joinComma xs

/-- `origins = settings.CORS_ORIGINS.split(",")` (main.py line 23). -/
def origins (s : Settings) : List String :=
  (splitComma s.CORS_ORIGINS.data).map (fun cs => String.mk cs)

/-- The constructed FastAPI application with its CORS middleware
(main.py lines 16-30): title and version from `FastAPI(...)`, the allowed-origin
list handed to `CORSMiddleware`, and the settings global it closes over. -/
structure App : Type where
  title : String
  version : String
  allow_origins : List String
  settings : Settings
deriving DecidableEq, Repr

/-- Building the application object from loaded settings (main.py lines 16-30). -/
def buildApp (s : Settings) : App :=
  { title := s.APP_NAME
    version := "1.0.0"
    allow_origins := origins s
    settings := s }

/-- Process start: `config.py` runs `settings = Settings()` at import, and only if
that succeeds does `main.py` construct the application that can accept connections.
A configuration validation error therefore yields no `App` at all. -/
def startProcess (env file : List (String × String)) : Except (List String) App :=
  match loadSettings env file with
  | Except.error es => Except.error es
  | Except.ok s => Except.ok (buildApp s)

/-- `startup_event()` (main.py lines 32-39): log the banner, run `test_connection()`
once, and log `"Database connection verified"` at info level on success or
`"Database connection failed!"` at error level on failure.  Total: the probe never
raises, so neither does the handler, and startup always completes. -/
def startup_event (db : DbState) : List Event :=
  match test_connection db with
  | (ok, evs) =>
      Event.logInfo "Starting Therapist Office API..." :: evs ++
        (if ok then [Event.logInfo "Database connection verified"]
         else [Event.logError "Database connection failed!"])

/-- An HTTP response: status code plus a flat JSON object of string fields. -/
structure HttpResponse : Type where
  statusCode : Nat
  body : List (String × String)
deriving DecidableEq, Repr

/-- `root()` (main.py lines 41-47).  The handler runs with the module-global
`settings` and some ambient database state; its body references neither. -/
def root (s : Settings) (db : DbState) : HttpResponse :=
  { statusCode := 200
    body := [("message", "Therapist Office API"), ("version", "1.0.0"),
             ("status", "running")] }

/-- The body of `health_check(db)` (main.py lines 49-65), as a consumer of the
scoped session injected by `Depends(get_db)`: try the trivial query; on success
return the healthy body, on any exception log it and raise
`HTTPException(503, "Service unavailable")`. -/
def health_check (s : Settings) (sess : DbState) :
    List Event × Outcome (List (String × String)) :=
  match sessionExecute sess "SELECT 1 FROM DUAL" with
  | Except.ok _ =>
      ([], Outcome.normal
        [("status", "healthy"), ("database", "connected"), ("version", "1.0.0")])
  | Except.error e =>
      ([Event.logError ("Health check failed: " ++ e)],
        Outcome.raised (Exn.http 503 "Service unavailable"))

/-- FastAPI's conversion of a handler outcome into a wire response: a normal value
becomes a 200 JSON response, a raised `HTTPException` becomes a response with its
status code and a `detail` body, any other exception becomes a 500. -/
def toResponse (r : Outcome (List (String × String))) : HttpResponse :=
  match r with
  | Outcome.normal b => { statusCode := 200, body := b }
  | Outcome.raised (Exn.http c d) => { statusCode := c, body := [("detail", d)] }
  | Outcome.raised (Exn.db _) =>
      { statusCode := 500, body := [("detail", "Internal Server Error")] }

/-- The full `GET /health` request path: the dependency `get_db` acquires and later
closes the scoped session around the `health_check` body, and FastAPI renders the
outcome. -/
def handleHealth (s : Settings) (db : DbState) : List Event × HttpResponse :=
  match get_db (health_check s) db with
  | (evs, r) => (evs, toResponse r)

/-- `api_info()` (main.py lines 67-75): a fixed-shape body populated from the
settings; the ambient database state is not referenced. -/
def api_info (s : Settings) (db : DbState) : HttpResponse :=
  { statusCode := 200
    body := [("app_name", s.APP_NAME), ("version", "1.0.0"),
             ("database_host", s.DATABASE_HOST), ("oci_region", s.OCI_REGION)] }

/-- Two settings objects agree on every field except possibly the secrets
`DATABASE_PASSWORD`, `SECRET_KEY` and `OCI_COMPARTMENT_ID`. -/
def eqPublic (a b : Settings) : Prop :=
  a.DATABASE_HOST = b.DATABASE_HOST ∧
  a.DATABASE_PORT = b.DATABASE_PORT ∧
  a.DATABASE_SERVICE = b.DATABASE_SERVICE ∧
  a.DATABASE_USER = b.DATABASE_USER ∧
  a.ALGORITHM = b.ALGORITHM ∧
  a.ACCESS_TOKEN_EXPIRE_MINUTES = b.ACCESS_TOKEN_EXPIRE_MINUTES ∧
  a.OCI_REGION = b.OCI_REGION ∧
  a.OCI_CONFIG_FILE = b.OCI_CONFIG_FILE ∧
  a.APP_NAME = b.APP_NAME ∧
  a.DEBUG = b.DEBUG ∧
  a.CORS_ORIGINS = b.CORS_ORIGINS

instance (a b : Settings) : Decidable (eqPublic a b) := by
  unfold eqPublic
  infer_instance

/-- A fully concrete settings object used to instantiate the hypothesised theorems. -/
def demoSettings : Settings :=
  { DATABASE_HOST := "oracle-db"
    DATABASE_PORT := 1521
    DATABASE_SERVICE := "FREEPDB1"
    DATABASE_USER := "therapist_app"
    DATABASE_PASSWORD := "pw1"
    SECRET_KEY := "key1"
    ALGORITHM := "HS256"
    ACCESS_TOKEN_EXPIRE_MINUTES := 30
    OCI_COMPARTMENT_ID := "ocid1"
    OCI_REGION := "us-ashburn-1"
    OCI_CONFIG_FILE := some "/app/.oci/config"
    APP_NAME := "Therapist Office App"
    DEBUG := false
    CORS_ORIGINS := "http://localhost:3000" }

/-- `demoSettings` with every secret field replaced by a different value. -/
def demoSettings2 : Settings :=
  { demoSettings with
    DATABASE_PASSWORD := "pw2"
    SECRET_KEY := "key2"
    OCI_COMPARTMENT_ID := "ocid2" }

/-! ## Auxiliary lemmas about `splitComma` -/

theorem splitComma_ne_nil (cs : List Char) : splitComma cs ≠ [] := by
  cases cs with
  | nil => simp [splitComma]
  | cons c rest =>
      simp only [splitComma]
      by_cases h : c = ','
      · simp [h]
      · simp only [if_neg h]
        cases hs : splitComma rest with
        | nil => simp
        | cons f fs => simp

theorem joinComma_cons_head (c : Char) (f : List Char) (fs : List (List Char)) :
    joinComma ((c :: f) :: fs) = c :: joinComma (f :: fs) := by
  cases fs with
  | nil => rfl
  | cons g t => rfl

theorem joinComma_splitComma (cs : List Char) : joinComma (splitComma cs) = cs := by
  induction cs with
  | nil => rfl
  | cons c rest ih =>
      obtain ⟨f, fs, hs⟩ := List.exists_cons_of_ne_nil (splitComma_ne_nil rest)
      by_cases h : c = ','
      · subst h
        have hsplit : splitComma (',' :: rest) = [] :: splitComma rest := by
          simp [splitComma]
        rw [hsplit, hs]
        have hj : joinComma ([] :: f :: fs) = ',' :: joinComma (f :: fs) := rfl
        rw [hj, ← hs, ih]
      · have hsplit : splitComma (c :: rest) = (c :: f) :: fs := by
          simp only [splitComma, if_neg h, hs]
        rw [hsplit, joinComma_cons_head, ← hs, ih]

theorem splitComma_mem_no_comma (cs : List Char) :
    ∀ l ∈ splitComma cs, ',' ∉ l := by
  induction cs with
  | nil =>
      intro l hl
      simp only [splitComma, List.mem_singleton] at hl
      subst hl; simp
  | cons c rest ih =>
      intro l hl
      by_cases h : c = ','
      · subst h
        have hsplit : splitComma (',' :: rest) = [] :: splitComma rest := by
          simp [splitComma]
        rw [hsplit] at hl
        rcases List.mem_cons.mp hl with rfl | hl
        · simp
        · exact ih l hl
      · obtain ⟨f, fs, hs⟩ := List.exists_cons_of_ne_nil (splitComma_ne_nil rest)
        have hsplit : splitComma (c :: rest) = (c :: f) :: fs := by
          simp only [splitComma, if_neg h, hs]
        rw [hsplit] at hl
        rcases List.mem_cons.mp hl with rfl | hl
        · intro hmem
          rcases List.mem_cons.mp hmem with he | hf
          · exact h he.symm
          · exact ih f (hs ▸ List.mem_cons_self f fs) hf
        · exact ih l (hs ▸ List.mem_cons_of_mem f hl)

theorem splitComma_of_no_comma (cs : List Char) (h : ',' ∉ cs) :
    splitComma cs = [cs] := by
  induction cs with
  | nil => rfl
  | cons c rest ih =>
      have hc : ¬c = ',' := by
        intro e; exact h (by simp [e])
      have hr : ',' ∉ rest := fun m => h (List.mem_cons_of_mem _ m)
      simp only [splitComma, if_neg hc, ih hr]

/-! ## The claims -/

/-- C1: `test_connection` never raises — it always returns a boolean — and that
boolean is `true` exactly when the underlying connection attempt plus trivial
`SELECT 1 FROM DUAL` query succeeds; every failure yields `false` together with an
error log entry carrying the failure message (success logs at info level). -/
theorem test_connection_boolean_complete (db : DbState) :
    ((test_connection db).1 = true ∧ connectAndQuery db = Except.ok () ∧
      Event.logInfo "Database connection successful" ∈ (test_connection db).2) ∨
    ((test_connection db).1 = false ∧ ∃ e, connectAndQuery db = Except.error e ∧
      Event.logError ("Database connection failed: " ++ e) ∈ (test_connection db).2) := by
  cases db with
  | up =>
      left
      refine ⟨rfl, rfl, ?_⟩
      simp [test_connection, engineConnect, connExecute]
  | connectFail m =>
      right
      refine ⟨rfl, m, rfl, ?_⟩
      simp [test_connection, engineConnect]
  | queryFail m =>
      right
      refine ⟨rfl, m, rfl, ?_⟩
      simp [test_connection, engineConnect, connExecute]

/-- C2: for every database state, `GET /health` either returns 200 with exactly
`{status: "healthy", database: "connected", version: "1.0.0"}` (precisely when the
trivial query on the acquired session succeeds) or responds 503 with detail exactly
`"Service unavailable"` (precisely when it fails); no other outcome exists. -/
theorem health_endpoint_dichotomy (s : Settings) (db : DbState) :
    (sessionExecute db "SELECT 1 FROM DUAL" = Except.ok () ∧
      (handleHealth s db).2 =
        { statusCode := 200
          body := [("status", "healthy"), ("database", "connected"),
                   ("version", "1.0.0")] }) ∨
    (∃ e, sessionExecute db "SELECT 1 FROM DUAL" = Except.error e ∧
      (handleHealth s db).2 =
        { statusCode := 503, body := [("detail", "Service unavailable")] }) := by
  cases db with
  | up => exact Or.inl ⟨rfl, rfl⟩
  | connectFail m => exact Or.inr ⟨m, rfl, rfl⟩
  | queryFail m => exact Or.inr ⟨m, rfl, rfl⟩

/-- C3: omitting any one of the three required fields (`DATABASE_PASSWORD`,
`SECRET_KEY`, `OCI_COMPARTMENT_ID`) from both the environment and the settings file
makes process start fail with a validation error that names the missing field, so no
application object capable of accepting connections is ever constructed. -/
theorem missing_required_field_fails_startup (env file : List (String × String))
    (f : String) (hf : f ∈ requiredFields) (hnone : lookup2 env file f = none) :
    ∃ errs, startProcess env file = Except.error errs ∧ f ∈ errs := by
  have hmem : f ∈ missingRequired env file := by
    unfold missingRequired
    exact List.mem_filter.mpr ⟨hf, by simp [hnone]⟩
  have hne : ¬missingRequired env file = [] := by
    intro h
    rw [h] at hmem
    exact absurd hmem (List.not_mem_nil f)
  have hload : loadSettings env file = Except.error (missingRequired env file) := by
    unfold loadSettings
    rw [if_neg hne]
  refine ⟨missingRequired env file, ?_, hmem⟩
  unfold startProcess
  rw [hload]

/-- Witness for C3 at a concrete environment that omits `SECRET_KEY`. -/
theorem missing_required_field_fails_startup_witness :
    ∃ errs,
      startProcess [("DATABASE_PASSWORD", "pw"), ("OCI_COMPARTMENT_ID", "cid")] [] =
        Except.error errs ∧ "SECRET_KEY" ∈ errs :=
  missing_required_field_fails_startup
    [("DATABASE_PASSWORD", "pw"), ("OCI_COMPARTMENT_ID", "cid")] []
    "SECRET_KEY" (by decide) (by decide)

/-- C4: every `get_db` call creates exactly one scoped session and closes it exactly
once, whatever the consumer does with it — normal value, early return value, or an
exception raised mid-use — and the consumer's outcome propagates unchanged. -/
theorem get_db_session_closed_once {α : Type}
    (consumer : DbState → List Event × Outcome α) (db : DbState) :
    countEvent isCreated (get_db consumer db).1 =
      countEvent isCreated (consumer db).1 + 1 ∧
    countEvent isClosed (get_db consumer db).1 =
      countEvent isClosed (consumer db).1 + 1 ∧
    (get_db consumer db).2 = (consumer db).2 := by
  rcases h : consumer db with ⟨evs, r⟩
  refine ⟨?_, ?_, ?_⟩
  · simp only [get_db, h, countEvent, List.filter_cons, List.filter_append]
    simp [isCreated]
  · simp only [get_db, h, countEvent, List.filter_cons, List.filter_append]
    simp [isClosed]
  · simp [get_db, h]

/-- C5: the startup handler runs the connectivity probe exactly once (one physical
connection attempt appears in its trace) and logs the result — info
`"Database connection verified"` on success, error `"Database connection failed!"`
on failure; being a total function into a plain event list, it aborts nothing and
raises nothing in either case. -/
theorem startup_probe_once_logged (db : DbState) :
    countEvent isConnect (startup_event db) = 1 ∧
    (((test_connection db).1 = true ∧
        Event.logInfo "Database connection verified" ∈ startup_event db) ∨
      ((test_connection db).1 = false ∧
        Event.logError "Database connection failed!" ∈ startup_event db)) := by
  cases db with
  | up =>
      constructor
      · decide
      · left; exact ⟨rfl, by decide⟩
  | connectFail m =>
      constructor
      · simp [startup_event, test_connection, engineConnect, countEvent, isConnect]
      · right
        refine ⟨rfl, ?_⟩
        simp [startup_event, test_connection, engineConnect]
  | queryFail m =>
      constructor
      · simp [startup_event, test_connection, engineConnect, connExecute,
          countEvent, isConnect]
      · right
        refine ⟨rfl, ?_⟩
        simp [startup_event, test_connection, engineConnect, connExecute]

/-- C6: with all three required fields provided and every optional field unset in
both the environment and the settings file, settings construction succeeds and every
optional field carries exactly its documented default (type-correctness of each field
is enforced by the `Settings` structure itself). -/
theorem optional_defaults_exact (env file : List (String × String))
    (pw sk cid : String)
    (hpw : lookup2 env file "DATABASE_PASSWORD" = some pw)
    (hsk : lookup2 env file "SECRET_KEY" = some sk)
    (hcid : lookup2 env file "OCI_COMPARTMENT_ID" = some cid)
    (h1 : lookup2 env file "DATABASE_HOST" = none)
    (h2 : lookup2 env file "DATABASE_PORT" = none)
    (h3 : lookup2 env file "DATABASE_SERVICE" = none)
    (h4 : lookup2 env file "DATABASE_USER" = none)
    (h5 : lookup2 env file "ALGORITHM" = none)
    (h6 : lookup2 env file "ACCESS_TOKEN_EXPIRE_MINUTES" = none)
    (h7 : lookup2 env file "OCI_REGION" = none)
    (h8 : lookup2 env file "OCI_CONFIG_FILE" = none)
    (h9 : lookup2 env file "APP_NAME" = none)
    (h10 : lookup2 env file "DEBUG" = none)
    (h11 : lookup2 env file "CORS_ORIGINS" = none) :
    loadSettings env file = Except.ok
      { DATABASE_HOST := "oracle-db"
        DATABASE_PORT := 1521
        DATABASE_SERVICE := "FREEPDB1"
        DATABASE_USER := "therapist_app"
        DATABASE_PASSWORD := pw
        SECRET_KEY := sk
        ALGORITHM := "HS256"
        ACCESS_TOKEN_EXPIRE_MINUTES := 30
        OCI_COMPARTMENT_ID := cid
        OCI_REGION := "us-ashburn-1"
        OCI_CONFIG_FILE := some "/app/.oci/config"
        APP_NAME := "Therapist Office App"
        DEBUG := false
        CORS_ORIGINS := "http://localhost:3000" } := by
  have hmr : missingRequired env file = [] := by
    simp [missingRequired, requiredFields, hpw, hsk, hcid]
  unfold loadSettings
  rw [if_pos hmr]
  simp [getInt, getBool, getStr, h1, h2, h3, h4, h5, h6, h7, h8, h9, h10, h11,
    hpw, hsk, hcid]

/-- Witness for C6 at a concrete environment providing exactly the three required
fields. -/
theorem optional_defaults_exact_witness :
    loadSettings
        [("DATABASE_PASSWORD", "pw"), ("SECRET_KEY", "sk"),
         ("OCI_COMPARTMENT_ID", "cid")] [] =
      Except.ok
        { DATABASE_HOST := "oracle-db"
          DATABASE_PORT := 1521
          DATABASE_SERVICE := "FREEPDB1"
          DATABASE_USER := "therapist_app"
          DATABASE_PASSWORD := "pw"
          SECRET_KEY := "sk"
          ALGORITHM := "HS256"
          ACCESS_TOKEN_EXPIRE_MINUTES := 30
          OCI_COMPARTMENT_ID := "cid"
          OCI_REGION := "us-ashburn-1"
          OCI_CONFIG_FILE := some "/app/.oci/config"
          APP_NAME := "Therapist Office App"
          DEBUG := false
          CORS_ORIGINS := "http://localhost:3000" } :=
  optional_defaults_exact
    [("DATABASE_PASSWORD", "pw"), ("SECRET_KEY", "sk"), ("OCI_COMPARTMENT_ID", "cid")]
    [] "pw" "sk" "cid" (by decide) (by decide) (by decide) (by decide) (by decide)
    (by decide) (by decide) (by decide) (by decide) (by decide) (by decide)
    (by decide) (by decide) (by decide)

/-- C7: `GET /` and `GET /api/info` return 200 with their fixed-shape bodies for
every database state — the handlers take the ambient database state but their bodies
never reference it — with `GET /api/info` populated from the configuration and both
versions equal to `"1.0.0"`. -/
theorem root_api_info_fixed_shape (s : Settings) (db : DbState) :
    root s db =
      { statusCode := 200
        body := [("message", "Therapist Office API"), ("version", "1.0.0"),
                 ("status", "running")] } ∧
    api_info s db =
      { statusCode := 200
        body := [("app_name", s.APP_NAME), ("version", "1.0.0"),
                 ("database_host", s.DATABASE_HOST),
                 ("oci_region", s.OCI_REGION)] } :=
  ⟨rfl, rfl⟩

/-- C8: the engine is built exactly as documented — the connection URL interpolates
user, password, host, port and service, `echo` equals the `DEBUG` flag, pre-use
liveness pinging is enabled, and the pool is sized base 10 with overflow 20. -/
theorem engine_configuration_exact (s : Settings) :
    (engine s).url =
      "oracle+oracledb://" ++ s.DATABASE_USER ++ ":" ++ s.DATABASE_PASSWORD ++ "@" ++
        s.DATABASE_HOST ++ ":" ++ toString s.DATABASE_PORT ++ "/" ++
        s.DATABASE_SERVICE ∧
    (engine s).echo = s.DEBUG ∧
    (engine s).pool_pre_ping = true ∧
    (engine s).pool_size = 10 ∧
    (engine s).max_overflow = 20 :=
  ⟨rfl, rfl, rfl, rfl, rfl⟩

/-- C9: the allowed-origins list is exactly the comma-split of `CORS_ORIGINS`:
joining the origin fields back with commas recovers the setting, no origin contains
a comma, and a comma-free setting yields the one-element list holding the whole
string. -/
theorem cors_origins_split_exact (s : Settings) :
    joinComma ((origins s).map String.data) = s.CORS_ORIGINS.data ∧
    (∀ o ∈ origins s, ',' ∉ o.data) ∧
    (',' ∉ s.CORS_ORIGINS.data → origins s = [s.CORS_ORIGINS]) := by
  refine ⟨?_, ?_, ?_⟩
  · unfold origins
    rw [List.map_map]
    have hid : (String.data ∘ fun cs => String.mk cs) = id := rfl
    rw [hid, List.map_id, joinComma_splitComma]
  · intro o ho
    unfold origins at ho
    rcases List.mem_map.mp ho with ⟨cs, hcs, rfl⟩
    exact splitComma_mem_no_comma _ cs hcs
  · intro h
    unfold origins
    rw [splitComma_of_no_comma _ h]
    rfl

/-- Witness for C9: the default `CORS_ORIGINS` value has no comma and splits to the
one-element list holding it. -/
theorem cors_origins_split_exact_witness :
    origins demoSettings = [demoSettings.CORS_ORIGINS] :=
  (cors_origins_split_exact demoSettings).2.2 (by decide)

/-- C10: the HTTP surface cannot observe the secrets — any two configurations that
agree on everything except `DATABASE_PASSWORD`, `SECRET_KEY` and
`OCI_COMPARTMENT_ID` make all three handlers produce identical responses (status and
body, and for `/health` also the session trace) given the same database outcome. -/
theorem secrets_noninterference (a b : Settings) (h : eqPublic a b) (db : DbState) :
    root a db = root b db ∧
    handleHealth a db = handleHealth b db ∧
    api_info a db = api_info b db := by
  obtain ⟨h1, h2, h3, h4, h5, h6, h7, h8, h9, h10, h11⟩ := h
  refine ⟨rfl, rfl, ?_⟩
  simp [api_info, h1, h7, h9]

/-- Witness for C10: two concrete configurations differing in all three secrets
produce identical responses everywhere. -/
theorem secrets_noninterference_witness :
    root demoSettings DbState.up = root demoSettings2 DbState.up ∧
    handleHealth demoSettings DbState.up = handleHealth demoSettings2 DbState.up ∧
    api_info demoSettings DbState.up = api_info demoSettings2 DbState.up :=
  secrets_noninterference demoSettings demoSettings2 (by decide) DbState.up

end TherapistApp
